import Mathlib

/-!
Shallow embedding of `src/memory_manager.py` (class `MemoryManager`).

External collaborators (the mem0 memory engine, the prompt template
service and the Ollama HTTP endpoint) are modelled as oracles: functions
returning `Except String _`, where `Except.error e` models a Python
exception whose `str` is `e`.  Python `None` is `Option.none`, a dict
that may lack its `results` key is a structure with an `Option` field,
and Python truthiness-based defaulting (`x or default`) is made explicit
in `or_default` / `or_default_nat` below.
-/

/-- A memory record as produced by the engine: `{id: ..., memory: ...}`. -/
structure MemoryRecord where
  id : String
  memory : String
deriving Repr, DecidableEq

/-- An engine result dict.  `results = none` models a dict without a
`results` key (so `d.get('results')` is `None`); `some l` models
`{'results': l}`. -/
structure ResultsDict where
  results : Option (List MemoryRecord)
deriving Repr, DecidableEq

/-- Python `s or d` for a possibly-`None` string `s`: `None` and the
empty string are falsy, anything else is truthy.  This is the defaulting
pattern `user_id = user_id or self.user_id` used in every public method
(lines 132, 176, 198, 220, 266 of the source). -/
def or_default (s : Option String) (d : String) : String :=
  match s with
  | none => d
  | some s => if s.isEmpty then d else s

/-- Python `n or d` for a possibly-`None` integer `n`: `None` and `0`
are falsy.  This is line 267,
`max_context_memories = max_context_memories or self.config...`. -/
def or_default_nat (n : Option Nat) (d : Nat) : Nat :=
  match n with
  | none => d
  | some n => if n = 0 then d else n

/-- The value of `self.config.get('chat_options', {}).get('max_context_memories', 5)`:
the configured value when the key is present, else 5. -/
def config_max_context (cfg : Option Nat) : Nat :=
  cfg.getD 5

/-- Observable trace of one `add_fact` call: the returned value
(`none` = Python `None`), how many times `memory.add` was invoked, and
the list of `time.sleep` durations performed (in seconds). -/
structure AddTrace (D : Type) where
  result : Option D
  attempts : Nat
  sleeps : List Nat
deriving Repr, DecidableEq

/-- The retry loop of `add_fact` (source lines 134-153).  `beh fact u k`
is the outcome of the `k`-th `memory.add(fact, user_id=u, ...)` call
(0-based), `attempt` is the current 0-based attempt index and
`remaining` the number of loop iterations left (`max_retries - attempt`).
On success the engine result is returned verbatim, whether or not its
`results` list is empty or missing (both `if` branches return `result`);
on failure the loop sleeps 2 seconds unless this was the last attempt,
in which case it returns `None`. -/
def add_fact_go {D : Type} (beh : String → String → Nat → Except String D)
    (fact u : String) : Nat → Nat → AddTrace D
  | _, 0 => ⟨none, 0, []⟩
  | attempt, remaining + 1 =>
    match beh fact u attempt with
    | Except.ok r => ⟨some r, 1, []⟩
    | Except.error _ =>
      if remaining = 0 then ⟨none, 1, []⟩
      else
        let t := add_fact_go beh fact u (attempt + 1) remaining
        ⟨t.result, t.attempts + 1, 2 :: t.sleeps⟩

/-- `MemoryManager.add_fact` (source lines 110-153).  `d` is the
configured default user id (`self.user_id`), `uid` the `user_id`
argument (`none` = omitted / `None`).  The metadata argument is opaque
to the logic and is absorbed into the behaviour oracle `beh`. -/
def add_fact {D : Type} (beh : String → String → Nat → Except String D)
    (fact : String) (d : String) (uid : Option String)
    (max_retries : Nat) : AddTrace D :=
  add_fact_go beh fact (or_default uid d) 0 max_retries

lemma add_fact_go_all_fail {D : Type}
    (beh : String → String → Nat → Except String D) (fact u : String)
    (hfail : ∀ k, ∃ e, beh fact u k = Except.error e) :
    ∀ remaining attempt,
      add_fact_go beh fact u attempt remaining =
        ⟨none, remaining, List.replicate (remaining - 1) 2⟩ := by
  intro remaining
  induction remaining with
  | zero => intro attempt; rfl
  | succ m ih =>
    intro attempt
    obtain ⟨e, he⟩ := hfail attempt
    cases m with
    | zero => simp [add_fact_go, he]
    | succ m' =>
      rw [add_fact_go]
      simp only [he]
      rw [if_neg (Nat.succ_ne_zero m'), ih (attempt + 1)]
      simp [List.replicate_succ]

lemma add_fact_go_first_success {D : Type}
    (beh : String → String → Nat → Except String D) (fact u : String)
    (r : D) :
    ∀ k attempt remaining, k < remaining →
      (∀ j, j < k → ∃ e, beh fact u (attempt + j) = Except.error e) →
      beh fact u (attempt + k) = Except.ok r →
      add_fact_go beh fact u attempt remaining =
        ⟨some r, k + 1, List.replicate k 2⟩ := by
  intro k
  induction k with
  | zero =>
    intro attempt remaining hk _ hok
    obtain ⟨m, rfl⟩ := Nat.exists_eq_add_of_lt hk
    simp only [Nat.add_zero] at hok
    simp [add_fact_go, hok]
  | succ n ih =>
    intro attempt remaining hk hfail hok
    obtain ⟨m, rfl⟩ := Nat.exists_eq_add_of_lt hk
    obtain ⟨e, he⟩ := hfail 0 (Nat.succ_pos n)
    rw [Nat.add_zero] at he
    have hrec := ih (attempt + 1) (n + m + 1)
        (Nat.lt_succ_of_le (Nat.le_add_right n m))
        (fun j hj => by
          have := hfail (j + 1) (Nat.succ_lt_succ hj)
          simpa [Nat.add_comm, Nat.add_assoc, Nat.add_left_comm] using this)
        (by simpa [Nat.add_comm, Nat.add_assoc, Nat.add_left_comm] using hok)
    show add_fact_go beh fact u attempt (n + 1 + m + 1) = _
    rw [add_fact_go]
    simp only [he]
    rw [if_neg (by omega)]
    have harg : n + 1 + m = n + m + 1 := by omega
    rw [harg, hrec]
    simp [List.replicate_succ]

/-- C2: if every underlying `memory.add` call raises, `add_fact` calls
`memory.add` exactly `max_retries` times, sleeps a fixed 2 seconds
after each failed attempt except the last (`max_retries - 1` sleeps in
total), and returns `None`. -/
theorem add_fact_all_attempts_fail {D : Type}
    (beh : String → String → Nat → Except String D)
    (fact d : String) (uid : Option String) (max_retries : Nat)
    (hfail : ∀ k, ∃ e, beh fact (or_default uid d) k = Except.error e) :
    add_fact beh fact d uid max_retries =
      ⟨none, max_retries, List.replicate (max_retries - 1) 2⟩ := by
  unfold add_fact
  exact add_fact_go_all_fail beh fact (or_default uid d) hfail max_retries 0

theorem add_fact_all_attempts_fail_witness :
    add_fact (D := ResultsDict) (fun _ _ _ => Except.error "engine down")
        "Bruce likes pizza" "default" none 3 =
      ⟨none, 3, [2, 2]⟩ := by
  have h := add_fact_all_attempts_fail (D := ResultsDict)
      (fun _ _ _ => Except.error "engine down")
      "Bruce likes pizza" "default" none 3
      (fun _ => ⟨"engine down", rfl⟩)
  simpa using h

/-- C3: if the `k`-th `memory.add` attempt (`k < max_retries`, the
earlier attempts having raised) returns without raising, `add_fact`
returns that engine result immediately and performs no further attempts
(`k + 1` attempts and `k` sleeps in total).  The result `r` is
arbitrary: in particular `r = ⟨none⟩` (no `results` key) and
`r = ⟨some []⟩` (empty `results` list) still count as success and
short-circuit the retries. -/
theorem add_fact_success_short_circuits
    (beh : String → String → Nat → Except String ResultsDict)
    (fact d : String) (uid : Option String) (max_retries k : Nat)
    (r : ResultsDict) (hk : k < max_retries)
    (hfail : ∀ j, j < k →
      ∃ e, beh fact (or_default uid d) j = Except.error e)
    (hok : beh fact (or_default uid d) k = Except.ok r) :
    add_fact beh fact d uid max_retries =
      ⟨some r, k + 1, List.replicate k 2⟩ := by
  unfold add_fact
  exact add_fact_go_first_success beh fact (or_default uid d) r k 0
    max_retries hk (fun j hj => by simpa using hfail j hj) (by simpa using hok)

theorem add_fact_success_short_circuits_witness :
    add_fact
        (fun _ _ k =>
          if k = 0 then Except.error "transient"
          else Except.ok (ResultsDict.mk (some [])))
        "Bruce likes pizza" "default" none 3 =
      ⟨some (ResultsDict.mk (some [])), 2, [2]⟩ := by
  have h := add_fact_success_short_circuits
      (fun _ _ k =>
        if k = 0 then Except.error "transient"
        else Except.ok (ResultsDict.mk (some [])))
      "Bruce likes pizza" "default" none 3 1 (ResultsDict.mk (some []))
      (by decide)
      (fun j hj => by
        interval_cases j
        exact ⟨"transient", rfl⟩)
      rfl
  simpa using h

/-- The slice of the mem0 engine interface consumed by the module
(spec section 6): `search`, `get_all` and `delete`, over an abstract
engine state `σ`.  `delete` returns the successor state; an
`Except.error` models a raised exception (state unchanged). -/
structure Engine (σ : Type) where
  search : σ → String → String → Nat → Except String ResultsDict
  getAll : σ → String → Except String ResultsDict
  delete : σ → String → Except String σ

/-- `MemoryManager.search_memories` (source lines 155-184): resolves the
user id by truthiness, calls `memory.search` once, and on any exception
returns `None` — no retry. -/
def search_memories {σ : Type} (E : Engine σ) (st : σ) (d : String)
    (query : String) (uid : Option String) (limit : Nat) :
    Option ResultsDict :=
  match E.search st query (or_default uid d) limit with
  | Except.ok r => some r
  | Except.error _ => none

/-- `MemoryManager.get_all_memories` (source lines 186-206): single
shot, `None` on any exception. -/
def get_all_memories {σ : Type} (E : Engine σ) (st : σ) (d : String)
    (uid : Option String) : Option ResultsDict :=
  match E.getAll st (or_default uid d) with
  | Except.ok r => some r
  | Except.error _ => none

/-- The "no relevant memories" context string of `chat`
(source line 277). -/
def no_info_context (u : String) : String :=
  "No specific information available about " ++ u ++ "."

/-- The context formatting step of `chat` (source lines 275-281).  The
fallthrough branch is taken exactly when the Python guard
`not memories or not memories.get('results')` is true: the search
result is `None`, lacks a `results` key, or has an empty `results`
list. -/
def format_context (u : String) (memories : Option ResultsDict) :
    String :=
  match memories with
  | some (ResultsDict.mk (some (r :: rs))) =>
    "Facts about " ++ u ++ ":\n" ++
      String.intercalate "\n" ((r :: rs).map (fun m => "• " ++ m.memory))
  | _ => no_info_context u

/-- The prompt resolution step of `chat` (source lines 283-298).
`primary u ctx q` is the outcome of
`get_prompt('chat', 'user_interaction', user_id=u, context=ctx, query=q)`;
`err_template q e` is the outcome of
`get_prompt('chat', 'error_response', query=q, error_message=e)`.
If the primary resolution raises, the error template is tried with the
primary failure's message; if that also raises, a fixed apology string
embedding the query is produced.  The result is always a plain string:
no exception escapes this step. -/
def resolve_prompt (primary : String → String → String → Except String String)
    (err_template : String → String → Except String String)
    (u ctx q : String) : String :=
  match primary u ctx q with
  | Except.ok p => p
  | Except.error e =>
    match err_template q e with
    | Except.ok p => p
    | Except.error _ =>
      "I apologize, but I'm having trouble processing your request: " ++ q

/-- Python `str.strip()` (no arguments): remove leading and trailing
whitespace characters.  Written structurally over the character list so
that it evaluates on concrete strings. -/
def py_strip (s : String) : String :=
  String.mk
    ((((s.data.dropWhile Char.isWhitespace).reverse).dropWhile
      Char.isWhitespace).reverse)

/-- The parsed JSON body of a generation response: `response = none`
models a JSON object without a `response` field. -/
structure OllamaJson where
  response : Option String

/-- The outcome of one `requests.post` call in `_call_ollama_api`:
`status` is the HTTP status code and `json` the outcome of
`response.json()` (`Except.error` = body is not valid JSON). -/
structure HttpResponse where
  status : Nat
  json : Except String OllamaJson

/-- `MemoryManager._call_ollama_api` (source lines 307-351).  The
request building (URL, model, temperature, num_predict, timeout) is
configuration plumbing absorbed into the `transport` oracle, which maps
the prompt to the outcome of `requests.post` (`Except.error` = transport
or timeout failure).  `response.raise_for_status()` raises `HTTPError`
exactly for status codes 400-599 (the `requests` library semantics);
`HTTPError`, transport errors and JSON decoding errors are all
`requests.exceptions.RequestException`, which the method logs and
re-raises.  On a surviving response, the `response` field is returned
stripped of surrounding whitespace, or a canned string if absent. -/
def call_ollama_api (transport : String → Except String HttpResponse)
    (prompt : String) : Except String String :=
  match transport prompt with
  | Except.error e => Except.error e
  | Except.ok resp =>
    if 400 ≤ resp.status ∧ resp.status < 600 then
      Except.error ("HTTP " ++ toString resp.status ++ " Error")
    else
      match resp.json with
      | Except.error e => Except.error e
      | Except.ok j =>
        match j.response with
        | some s => Except.ok (py_strip s)
        | none => Except.ok "Sorry, I couldn't generate a response."

/-- The body of the `try` block of `chat` (source lines 269-301):
search → format → resolve prompt → generate.  In this embedding the
search step absorbs engine exceptions (via `search_memories`), the
formatting step is total, and the prompt step absorbs resolution
failures (via `resolve_prompt`), so the only raising step is the
generation call — exactly the exception flow of the source, where
every other failure path is absorbed before this point. -/
def chat_exc {σ : Type} (E : Engine σ) (st : σ)
    (primary : String → String → String → Except String String)
    (err_template : String → String → Except String String)
    (transport : String → Except String HttpResponse)
    (d : String) (cfg_max : Option Nat)
    (query : String) (uid : Option String) (max_ctx : Option Nat) :
    Except String String :=
  let u := or_default uid d
  let m := or_default_nat max_ctx (config_max_context cfg_max)
  let memories := search_memories E st d query (some u) m
  let context := format_context u memories
  let prompt := resolve_prompt primary err_template u context query
  call_ollama_api transport prompt

/-- `MemoryManager.chat` (source lines 245-305): the body above inside
the top-level `try`/`except`, which converts any escaping exception into
the string `"Sorry, I encountered an error: " ++ message`. -/
def chat {σ : Type} (E : Engine σ) (st : σ)
    (primary : String → String → String → Except String String)
    (err_template : String → String → Except String String)
    (transport : String → Except String HttpResponse)
    (d : String) (cfg_max : Option Nat)
    (query : String) (uid : Option String) (max_ctx : Option Nat) :
    String :=
  match chat_exc E st primary err_template transport d cfg_max
      query uid max_ctx with
  | Except.ok s => s
  | Except.error e => "Sorry, I encountered an error: " ++ e

/-- C1: `chat` never raises; it is a total function into `String`, and
the single top-level failure boundary converts any exception escaping
the search → format → resolve-prompt → generate sequence (in this
embedding, one propagated by the generation client, the only raising
step — every other failure is absorbed earlier, as in the source) into
`"Sorry, I encountered an error: " ++ message`, while a normal
completion is returned unchanged. -/
theorem chat_top_level_error_boundary {σ : Type} (E : Engine σ) (st : σ)
    (primary : String → String → String → Except String String)
    (err_template : String → String → Except String String)
    (transport : String → Except String HttpResponse)
    (d : String) (cfg_max : Option Nat)
    (query : String) (uid : Option String) (max_ctx : Option Nat) :
    (∀ e, chat_exc E st primary err_template transport d cfg_max
        query uid max_ctx = Except.error e →
      chat E st primary err_template transport d cfg_max
        query uid max_ctx = "Sorry, I encountered an error: " ++ e) ∧
    (∀ s, chat_exc E st primary err_template transport d cfg_max
        query uid max_ctx = Except.ok s →
      chat E st primary err_template transport d cfg_max
        query uid max_ctx = s) := by
  constructor <;> intro x hx <;> simp [chat, hx]

/-- A trivial engine over the unit state, used to instantiate chat
scenarios. -/
def unit_engine : Engine Unit where
  search := fun _ _ _ _ => Except.ok (ResultsDict.mk (some []))
  getAll := fun _ _ => Except.ok (ResultsDict.mk (some []))
  delete := fun _ _ => Except.ok ()

theorem chat_top_level_error_boundary_witness :
    chat unit_engine () (fun _ _ _ => Except.ok "PROMPT")
        (fun _ _ => Except.error "no template")
        (fun _ => Except.error "connection refused")
        "default" none "What do I like to eat" none none =
      "Sorry, I encountered an error: connection refused" :=
  (chat_top_level_error_boundary unit_engine ()
    (fun _ _ _ => Except.ok "PROMPT")
    (fun _ _ => Except.error "no template")
    (fun _ => Except.error "connection refused")
    "default" none "What do I like to eat" none none).1
    "connection refused" rfl

/-- C4: the chat context is `"No specific information available about
{user_id}."` when the search result is `None`, lacks a `results` key,
or has an empty `results` list; otherwise it is the header
`"Facts about {user_id}:"` followed by one `"• {memory}"` bullet line
per fact, newline-separated, in search order — with the concrete
example from the spec checked literally. -/
theorem format_context_spec :
    (∀ u, format_context u none =
      "No specific information available about " ++ u ++ ".") ∧
    (∀ u, format_context u (some (ResultsDict.mk none)) =
      "No specific information available about " ++ u ++ ".") ∧
    (∀ u, format_context u (some (ResultsDict.mk (some []))) =
      "No specific information available about " ++ u ++ ".") ∧
    (∀ u r rs, format_context u (some (ResultsDict.mk (some (r :: rs)))) =
      "Facts about " ++ u ++ ":\n" ++
        String.intercalate "\n"
          ((r :: rs).map (fun m => "• " ++ m.memory))) ∧
    format_context "bruce"
        (some (ResultsDict.mk (some
          [MemoryRecord.mk "1" "Lives in NYC",
           MemoryRecord.mk "2" "Likes pizza"]))) =
      "Facts about bruce:\n• Lives in NYC\n• Likes pizza" := by
  refine ⟨fun u => rfl, fun u => rfl, fun u => rfl, fun u r rs => rfl, ?_⟩
  rfl

/-- C5: the prompt resolution step is total (it returns a plain string,
never an exception): a successful primary resolution is returned; on
primary failure a successful `error_response` resolution is returned;
and when both raise, the fixed apology string is produced, which
contains the original query verbatim (as a suffix). -/
theorem resolve_prompt_never_raises
    (primary : String → String → String → Except String String)
    (err_template : String → String → Except String String)
    (u ctx q : String) :
    (∀ p, primary u ctx q = Except.ok p →
      resolve_prompt primary err_template u ctx q = p) ∧
    (∀ e p, primary u ctx q = Except.error e →
      err_template q e = Except.ok p →
      resolve_prompt primary err_template u ctx q = p) ∧
    (∀ e e2, primary u ctx q = Except.error e →
      err_template q e = Except.error e2 →
      resolve_prompt primary err_template u ctx q =
        "I apologize, but I'm having trouble processing your request: "
          ++ q ∧
      ∃ pre, resolve_prompt primary err_template u ctx q = pre ++ q) := by
  refine ⟨fun p hp => by simp [resolve_prompt, hp],
          fun e p he hp => by simp [resolve_prompt, he, hp],
          fun e e2 he he2 => ?_⟩
  constructor
  · simp [resolve_prompt, he, he2]
  · exact ⟨"I apologize, but I'm having trouble processing your request: ",
      by simp [resolve_prompt, he, he2]⟩

theorem resolve_prompt_never_raises_witness :
    resolve_prompt (fun _ _ _ => Except.error "template not found")
        (fun _ _ => Except.error "template dir missing")
        "bruce" "ctx" "What do I like" =
      "I apologize, but I'm having trouble processing your request: "
        ++ "What do I like" :=
  ((resolve_prompt_never_raises
    (fun _ _ _ => Except.error "template not found")
    (fun _ _ => Except.error "template dir missing")
    "bruce" "ctx" "What do I like").2.2
    "template not found" "template dir missing" rfl rfl).1

/-- C6 counterexample: the claim says `_call_ollama_api` raises on every
non-2xx status, but `response.raise_for_status()` only raises for
status codes 400-599.  A 304 response (non-2xx) whose JSON body carries
a `response` field is returned normally — the call yields `"hi"`
instead of raising. -/
theorem call_ollama_api_304_returns :
    call_ollama_api
        (fun _ => Except.ok
          (HttpResponse.mk 304 (Except.ok (OllamaJson.mk (some "hi")))))
        "prompt" = Except.ok "hi" ∧
    ¬ (200 ≤ 304 ∧ 304 < 300) := by
  constructor
  · rfl
  · decide

/-- C6 (amended): on a response surviving `raise_for_status` (any
status outside 400-599, including every 2xx) whose JSON body contains a
`response` field, `_call_ollama_api` returns that field stripped of
surrounding whitespace; on such a response with valid JSON but no
`response` field it returns the canned string without raising; on a
4xx or 5xx status, or a transport failure, it raises to the caller. -/
theorem call_ollama_api_contract (resp : HttpResponse) (prompt : String) :
    (∀ j s, ¬ (400 ≤ resp.status ∧ resp.status < 600) →
      resp.json = Except.ok j → j.response = some s →
      call_ollama_api (fun _ => Except.ok resp) prompt =
        Except.ok (py_strip s)) ∧
    (∀ j, ¬ (400 ≤ resp.status ∧ resp.status < 600) →
      resp.json = Except.ok j → j.response = none →
      call_ollama_api (fun _ => Except.ok resp) prompt =
        Except.ok "Sorry, I couldn't generate a response.") ∧
    (400 ≤ resp.status → resp.status < 600 →
      ∃ e, call_ollama_api (fun _ => Except.ok resp) prompt =
        Except.error e) ∧
    (∀ e, call_ollama_api (fun _ => Except.error e) prompt =
      Except.error e) := by
  refine ⟨fun j s hst hj hs => ?_, fun j hst hj hs => ?_,
    fun h4 h6 => ?_, fun e => rfl⟩
  · simp [call_ollama_api, hj, hs, if_neg hst]
  · simp [call_ollama_api, hj, hs, if_neg hst]
  · exact ⟨"HTTP " ++ toString resp.status ++ " Error",
      by simp [call_ollama_api, if_pos (And.intro h4 h6)]⟩

theorem call_ollama_api_contract_witness :
    call_ollama_api
        (fun _ => Except.ok
          (HttpResponse.mk 200 (Except.ok (OllamaJson.mk (some "  hello  ")))))
        "p" = Except.ok "hello" ∧
    call_ollama_api
        (fun _ => Except.ok
          (HttpResponse.mk 200 (Except.ok (OllamaJson.mk none))))
        "p" = Except.ok "Sorry, I couldn't generate a response." ∧
    (∃ e, call_ollama_api
        (fun _ => Except.ok
          (HttpResponse.mk 500 (Except.ok (OllamaJson.mk (some "x")))))
        "p" = Except.error e) ∧
    call_ollama_api (fun _ => Except.error "timeout") "p" =
      Except.error "timeout" := by
  refine ⟨?_, ?_, ?_, ?_⟩
  · have h := (call_ollama_api_contract
        (HttpResponse.mk 200 (Except.ok (OllamaJson.mk (some "  hello  "))))
        "p").1 (OllamaJson.mk (some "  hello  ")) "  hello  "
        (by decide) rfl rfl
    exact h.trans (by rfl)
  · exact (call_ollama_api_contract
        (HttpResponse.mk 200 (Except.ok (OllamaJson.mk none)))
        "p").2.1 (OllamaJson.mk none) (by decide) rfl rfl
  · exact (call_ollama_api_contract
        (HttpResponse.mk 500 (Except.ok (OllamaJson.mk (some "x"))))
        "p").2.2.1 (by decide) (by decide)
  · exact (call_ollama_api_contract
        (HttpResponse.mk 500 (Except.ok (OllamaJson.mk none))) "p").2.2.2
      "timeout"

/-- The per-item deletion loop of `reset_memories` (source lines
230-236): iterate over the snapshot returned by `get_all_memories`,
delete each record by id, count successes, and continue past
failures. -/
def delete_loop {σ : Type} (E : Engine σ) : σ → List MemoryRecord → Nat × σ
  | st, [] => (0, st)
  | st, r :: rs =>
    match E.delete st r.id with
    | Except.ok st2 =>
      let t := delete_loop E st2 rs
      (t.1 + 1, t.2)
    | Except.error _ => delete_loop E st rs

/-- `MemoryManager.reset_memories` (source lines 208-243): resolve the
user id, list all memories through `get_all_memories`, return 0 when
the listing failed (`None`) or its `results` are missing or empty, and
otherwise delete each snapshot record individually, returning the count
of successful deletions together with the resulting engine state.  The
surrounding `try` has nothing left to catch in this embedding because
listing failures are already absorbed by `get_all_memories` and
per-item failures by the loop, as in the source. -/
def reset_memories {σ : Type} (E : Engine σ) (st : σ) (d : String)
    (uid : Option String) : Nat × σ :=
  let u := or_default uid d
  match get_all_memories E st d (some u) with
  | none => (0, st)
  | some dict =>
    match dict.results with
    | none => (0, st)
    | some [] => (0, st)
    | some (r :: rs) => delete_loop E st (r :: rs)

/-- The records a concrete store holds for user `u`, in store order. -/
def user_records (st : List (String × MemoryRecord)) (u : String) :
    List MemoryRecord :=
  (st.filter (fun p => p.1 == u)).map Prod.snd

/-- Modelled from the spec: the external mem0 memory engine (spec
sections 3 and 6), which is not part of this repository.  The state is
a list of (user, record) pairs; `search` returns a ranked subset of the
user's records of length at most the requested limit, `get_all` returns
them all, and `delete` removes a record by id; `bad` marks ids whose
deletion raises (state unchanged). -/
def mem_engine (bad : String → Bool) :
    Engine (List (String × MemoryRecord)) where
  search := fun st _ u limit =>
    Except.ok (ResultsDict.mk (some ((user_records st u).take limit)))
  getAll := fun st u =>
    Except.ok (ResultsDict.mk (some (user_records st u)))
  delete := fun st mid =>
    if bad mid then Except.error ("delete failed: " ++ mid)
    else Except.ok (st.filter (fun p => !(p.2.id == mid)))

/-- The mem0 engine model with no failing deletions. -/
def reliable_engine : Engine (List (String × MemoryRecord)) :=
  mem_engine (fun _ => false)

lemma or_default_idem (uid : Option String) (d : String) :
    or_default (some (or_default uid d)) d = or_default uid d := by
  cases uid with
  | none => simp [or_default]
  | some s =>
    simp only [or_default]
    by_cases h : s.isEmpty = true
    · simp [h]
    · simp [h]

lemma mem_engine_delete (bad : String → Bool)
    (st : List (String × MemoryRecord)) (mid : String) :
    (mem_engine bad).delete st mid =
      if bad mid then Except.error ("delete failed: " ++ mid)
      else Except.ok (st.filter (fun p => !(p.2.id == mid))) := rfl

lemma mem_engine_getAll (bad : String → Bool)
    (st : List (String × MemoryRecord)) (u : String) :
    (mem_engine bad).getAll st u =
      Except.ok (ResultsDict.mk (some (user_records st u))) := rfl

lemma delete_loop_cons_ok_fst {σ : Type} (E : Engine σ) (st st2 : σ)
    (r : MemoryRecord) (rs : List MemoryRecord)
    (h : E.delete st r.id = Except.ok st2) :
    (delete_loop E st (r :: rs)).1 = (delete_loop E st2 rs).1 + 1 := by
  rw [delete_loop, h]

lemma delete_loop_cons_ok_snd {σ : Type} (E : Engine σ) (st st2 : σ)
    (r : MemoryRecord) (rs : List MemoryRecord)
    (h : E.delete st r.id = Except.ok st2) :
    (delete_loop E st (r :: rs)).2 = (delete_loop E st2 rs).2 := by
  rw [delete_loop, h]

lemma delete_loop_cons_err {σ : Type} (E : Engine σ) (st : σ)
    (r : MemoryRecord) (rs : List MemoryRecord) (e : String)
    (h : E.delete st r.id = Except.error e) :
    delete_loop E st (r :: rs) = delete_loop E st rs := by
  rw [delete_loop, h]

lemma delete_loop_count (bad : String → Bool) :
    ∀ (rs : List MemoryRecord) (st : List (String × MemoryRecord)),
      (delete_loop (mem_engine bad) st rs).1 =
        (rs.filter (fun r => !(bad r.id))).length := by
  intro rs
  induction rs with
  | nil => intro st; rfl
  | cons r rs ih =>
    intro st
    by_cases h : bad r.id
    · rw [delete_loop_cons_err (mem_engine bad) st r rs _
        (by rw [mem_engine_delete, if_pos h]), ih]
      simp [List.filter_cons, h]
    · rw [delete_loop_cons_ok_fst (mem_engine bad) st
        (st.filter (fun p => !(p.2.id == r.id))) r rs
        (by rw [mem_engine_delete, if_neg h]), ih]
      simp [List.filter_cons, h]

lemma delete_loop_mem (bad : String → Bool) :
    ∀ (rs : List MemoryRecord) (st : List (String × MemoryRecord))
      (p : String × MemoryRecord),
      p ∈ (delete_loop (mem_engine bad) st rs).2 ↔
        p ∈ st ∧ ∀ r ∈ rs, bad r.id = false → p.2.id ≠ r.id := by
  intro rs
  induction rs with
  | nil => intro st p; simp [delete_loop]
  | cons r rs ih =>
    intro st p
    by_cases h : bad r.id
    · rw [delete_loop_cons_err (mem_engine bad) st r rs _
        (by rw [mem_engine_delete, if_pos h]), ih]
      simp [List.forall_mem_cons, h]
    · rw [delete_loop_cons_ok_snd (mem_engine bad) st
        (st.filter (fun q => !(q.2.id == r.id))) r rs
        (by rw [mem_engine_delete, if_neg h]), ih]
      simp only [List.mem_filter, List.forall_mem_cons, h,
        Bool.not_eq_true', beq_eq_false_iff_ne, ne_eq]
      tauto

lemma reset_memories_mem_engine (bad : String → Bool)
    (st : List (String × MemoryRecord)) (d : String)
    (uid : Option String) :
    reset_memories (mem_engine bad) st d uid =
      delete_loop (mem_engine bad) st
        (user_records st (or_default uid d)) := by
  have hga : get_all_memories (mem_engine bad) st d
      (some (or_default uid d)) =
      some (ResultsDict.mk (some (user_records st (or_default uid d)))) := by
    rw [get_all_memories, or_default_idem, mem_engine_getAll]
  simp only [reset_memories]
  rw [hga]
  cases hu : user_records st (or_default uid d) with
  | nil => simp [delete_loop]
  | cons r rs => rfl

lemma mem_user_records {st : List (String × MemoryRecord)} {u : String}
    {p : String × MemoryRecord} (hp : p ∈ st) (h1 : p.1 = u) :
    p.2 ∈ user_records st u :=
  List.mem_map_of_mem Prod.snd (List.mem_filter.mpr ⟨hp, by simp [h1]⟩)

lemma reset_clears_user (st : List (String × MemoryRecord)) (d : String)
    (uid : Option String) :
    user_records (reset_memories reliable_engine st d uid).2
      (or_default uid d) = [] := by
  unfold reliable_engine
  rw [reset_memories_mem_engine]
  rw [user_records, List.map_eq_nil_iff, List.filter_eq_nil_iff]
  intro p hp hq
  rw [delete_loop_mem] at hp
  have hpu : p.1 = or_default uid d := by simpa using hq
  exact hp.2 p.2 (mem_user_records hp.1 hpu) rfl rfl

/-- C8: `reset_memories` returns the count of individual deletions that
succeeded, continuing past per-item delete failures without raising
(conjunct 1, over the engine model with failing ids `bad`); it returns
0 when listing the memories fails (conjunct 2, over any engine) — and
hence also when the user has zero memories, the `bad`-free count of an
empty snapshot in conjunct 1; and on a reliable engine a populated user
yields a positive count (conjunct 3) followed by 0 on the immediately
repeated call (conjunct 4). -/
theorem reset_memories_spec :
    (∀ (bad : String → Bool) (st : List (String × MemoryRecord))
        (d : String) (uid : Option String),
      (reset_memories (mem_engine bad) st d uid).1 =
        ((user_records st (or_default uid d)).filter
          (fun r => !(bad r.id))).length) ∧
    (∀ (σ : Type) (E : Engine σ) (st : σ) (d : String)
        (uid : Option String) (e : String),
      E.getAll st (or_default uid d) = Except.error e →
      (reset_memories E st d uid).1 = 0) ∧
    (∀ (st : List (String × MemoryRecord)) (d : String)
        (uid : Option String),
      user_records st (or_default uid d) ≠ [] →
      0 < (reset_memories reliable_engine st d uid).1) ∧
    (∀ (st : List (String × MemoryRecord)) (d : String)
        (uid : Option String),
      (reset_memories reliable_engine
        (reset_memories reliable_engine st d uid).2 d uid).1 = 0) := by
  refine ⟨?_, ?_, ?_, ?_⟩
  · intro bad st d uid
    rw [reset_memories_mem_engine, delete_loop_count]
  · intro σ E st d uid e h
    have hga : get_all_memories E st d (some (or_default uid d)) = none := by
      rw [get_all_memories, or_default_idem, h]
    simp only [reset_memories]
    rw [hga]
  · intro st d uid hne
    unfold reliable_engine
    rw [reset_memories_mem_engine, delete_loop_count]
    simpa using List.length_pos.mpr hne
  · intro st d uid
    have hclear := reset_clears_user st d uid
    unfold reliable_engine at hclear ⊢
    rw [reset_memories_mem_engine (fun _ => false)
      ((reset_memories (mem_engine (fun _ => false)) st d uid).2) d uid,
      hclear]
    rfl

/-- The populated demo store: two records for bruce, one for alice. -/
def demo_store : List (String × MemoryRecord) :=
  [("bruce", MemoryRecord.mk "m1" "Lives in NYC"),
   ("bruce", MemoryRecord.mk "m2" "Likes pizza"),
   ("alice", MemoryRecord.mk "m3" "Has a dog")]

/-- An engine whose listing operation always raises. -/
def fail_getall_engine : Engine Unit where
  search := fun _ _ _ _ => Except.error "down"
  getAll := fun _ _ => Except.error "listing failed"
  delete := fun _ _ => Except.ok ()

theorem reset_memories_spec_witness :
    (reset_memories fail_getall_engine () "default" none).1 = 0 ∧
    0 < (reset_memories reliable_engine demo_store "default"
      (some "bruce")).1 ∧
    (reset_memories reliable_engine
      (reset_memories reliable_engine demo_store "default"
        (some "bruce")).2 "default" (some "bruce")).1 = 0 :=
  ⟨reset_memories_spec.2.1 Unit fail_getall_engine () "default" none
      "listing failed" rfl,
   reset_memories_spec.2.2.1 demo_store "default" (some "bruce")
      (by decide),
   reset_memories_spec.2.2.2 demo_store "default" (some "bruce")⟩

/-- Length of the `results` list of a search result (`0` for `None` or
a missing `results` key). -/
def results_len : Option ResultsDict → Nat
  | none => 0
  | some dct => (dct.results.getD []).length

/-- C9: over the engine model (whose `search` honours the requested
limit, as the external engine's interface promises), `search_memories`
returns a result whose `results` list has length at most the requested
limit, for every store, query, user and limit — in particular at most 3
results for `limit = 3` however many memories match.  The wrapper
passes the limit through to the engine unchanged and never enlarges the
result. -/
theorem search_memories_limit (bad : String → Bool)
    (st : List (String × MemoryRecord)) (d query : String)
    (uid : Option String) (limit : Nat) :
    results_len (search_memories (mem_engine bad) st d query uid limit) ≤
      limit := by
  rw [search_memories,
    show (mem_engine bad).search st query (or_default uid d) limit =
      Except.ok (ResultsDict.mk
        (some ((user_records st (or_default uid d)).take limit))) from rfl]
  simp [results_len]

/-- C10: every public operation applies its defaults by Python
truthiness (`or`), not an is-`None` check: an empty-string `user_id`
is silently replaced by the configured default in `add_fact`,
`search_memories`, `get_all_memories`, `reset_memories` and `chat`,
and `chat` called with `max_context_memories = 0` silently uses the
configured value (5 when the configuration omits it) instead of 0. -/
theorem falsy_argument_defaulting :
    (∀ (D : Type) (beh : String → String → Nat → Except String D)
        (fact d : String) (m : Nat),
      add_fact beh fact d (some "") m = add_fact beh fact d none m) ∧
    (∀ (σ : Type) (E : Engine σ) (st : σ) (d query : String)
        (limit : Nat),
      search_memories E st d query (some "") limit =
        search_memories E st d query none limit) ∧
    (∀ (σ : Type) (E : Engine σ) (st : σ) (d : String),
      get_all_memories E st d (some "") = get_all_memories E st d none) ∧
    (∀ (σ : Type) (E : Engine σ) (st : σ) (d : String),
      reset_memories E st d (some "") = reset_memories E st d none) ∧
    (∀ (σ : Type) (E : Engine σ) (st : σ)
        (primary : String → String → String → Except String String)
        (err_template : String → String → Except String String)
        (transport : String → Except String HttpResponse)
        (d : String) (cfg : Option Nat) (q : String) (mc : Option Nat),
      chat E st primary err_template transport d cfg q (some "") mc =
        chat E st primary err_template transport d cfg q none mc) ∧
    (∀ (σ : Type) (E : Engine σ) (st : σ)
        (primary : String → String → String → Except String String)
        (err_template : String → String → Except String String)
        (transport : String → Except String HttpResponse)
        (d : String) (cfg : Option Nat) (q : String)
        (uid : Option String),
      chat E st primary err_template transport d cfg q uid (some 0) =
        chat E st primary err_template transport d cfg q uid none) ∧
    (∀ cfg : Option Nat,
      or_default_nat (some 0) (config_max_context cfg) =
        config_max_context cfg) ∧
    config_max_context none = 5 :=
  ⟨fun _ _ _ _ _ => rfl,
   fun _ _ _ _ _ _ => rfl,
   fun _ _ _ _ => rfl,
   fun _ _ _ _ => rfl,
   fun _ _ _ _ _ _ _ _ _ _ => rfl,
   fun _ _ _ _ _ _ _ _ _ _ => rfl,
   fun _ => rfl,
   rfl⟩

/-- An engine whose search operation always raises. -/
def fail_search_engine : Engine Unit where
  search := fun _ _ _ _ => Except.error "search backend down"
  getAll := fun _ _ => Except.ok (ResultsDict.mk (some []))
  delete := fun _ _ => Except.ok ()

/-- C7 counterexample: the engine's search raises, `search_memories`
duly returns `None`, the chat context is the "no information" string —
but when the generation endpoint answers with an empty `response`
field, `chat` returns the empty string, so the claim that such a chat
call "still returns a non-empty string" is false at this input. -/
theorem chat_after_failed_search_can_be_empty :
    fail_search_engine.search () "food" "default" 5 =
      Except.error "search backend down" ∧
    search_memories fail_search_engine () "default" "food"
      (some "default") 5 = none ∧
    chat fail_search_engine ()
        (fun _ ctx _ => Except.ok ctx) (fun _ _ => Except.error "t")
        (fun _ => Except.ok (HttpResponse.mk 200
          (Except.ok (OllamaJson.mk (some "")))))
        "default" none "food" none none = "" :=
  ⟨rfl, rfl, rfl⟩

/-- C7 (amended): if the engine's search raises, `search_memories`
returns `None` with no retry, and the subsequent `chat` call does not
raise: it returns exactly the outcome of the generation step applied
to the prompt resolved from the
`"No specific information available about {user_id}."` context — the
generation output on success (non-empty whenever that output is
non-empty) or the non-empty `"Sorry, I encountered an error: ..."`
string when generation raises. -/
theorem chat_no_memory_fallback {σ : Type} (E : Engine σ) (st : σ)
    (primary : String → String → String → Except String String)
    (err_template : String → String → Except String String)
    (transport : String → Except String HttpResponse)
    (d : String) (cfg : Option Nat) (q : String) (uid : Option String)
    (mc : Option Nat) (e : String)
    (hs : E.search st q (or_default uid d)
      (or_default_nat mc (config_max_context cfg)) = Except.error e) :
    search_memories E st d q (some (or_default uid d))
      (or_default_nat mc (config_max_context cfg)) = none ∧
    chat E st primary err_template transport d cfg q uid mc =
      (match call_ollama_api transport
          (resolve_prompt primary err_template (or_default uid d)
            (no_info_context (or_default uid d)) q) with
       | Except.ok s => s
       | Except.error er => "Sorry, I encountered an error: " ++ er) := by
  have hsm : search_memories E st d q (some (or_default uid d))
      (or_default_nat mc (config_max_context cfg)) = none := by
    rw [search_memories, or_default_idem, hs]
  refine ⟨hsm, ?_⟩
  simp only [chat, chat_exc]
  rw [hsm]
  rfl

theorem chat_no_memory_fallback_witness :
    search_memories fail_search_engine () "default" "food"
      (some "default") 5 = none ∧
    chat fail_search_engine ()
        (fun _ _ _ => Except.ok "P") (fun _ _ => Except.error "t")
        (fun _ => Except.ok (HttpResponse.mk 200
          (Except.ok (OllamaJson.mk (some " Bruce likes pizza ")))))
        "default" none "food" none none = "Bruce likes pizza" := by
  have h := chat_no_memory_fallback fail_search_engine ()
      (fun _ _ _ => Except.ok "P") (fun _ _ => Except.error "t")
      (fun _ => Except.ok (HttpResponse.mk 200
        (Except.ok (OllamaJson.mk (some " Bruce likes pizza ")))))
      "default" none "food" none none "search backend down" rfl
  exact ⟨h.1, h.2.trans (by rfl)⟩
